import Mathlib

/-!
Shallow embedding of the YoSmart API client (`yosmart_client.py`).

The client's mutable state is the structure `YoSmartAPIClient`; every network
interaction is modelled by an explicit oracle argument describing the outcome
of the single HTTP POST the corresponding Python code performs
(`TokenResponse` for the token endpoint, `ApiResponse` for the API endpoints).
Each operation returns its Python return value, the updated client state, and
a trace of events (function invocations and HTTP posts) so that claims about
"invokes authenticate exactly once" or "performs no network call" are
statements about the trace. Clock time is passed explicitly in epoch seconds;
the payload `time` field is that instant in milliseconds, as in the source.
-/

namespace YoSmart

/-- Truthiness of a Python optional-string attribute: `None` and `""` are falsy
(the source tests these fields with `if not self.access_token:` etc.). -/
def strTruthy : Option String → Bool
  | none => false
  | some s => s != ""

/-- JSON-like values, as parsed from an HTTP response body by `response.json()`. -/
inductive JVal where
  | null
  | bool (b : Bool)
  | num (n : Int)
  | str (s : String)
  | arr (elems : List JVal)
  | dict (fields : List (String × JVal))

/-- A parameters dictionary for an API call (the Python `params` dict). -/
abbrev Params := List (String × JVal)

/-- Truthiness of the optional params dict: `None` and the empty dict `{}` are
falsy (the source guards with `if params:`). -/
def paramsTruthy : Option Params → Bool
  | none => false
  | some l => !l.isEmpty

/-- The fields the client reads out of a token-endpoint HTTP-200 response body
via `data.get(...)`; each is absent when the key is missing. `expires_in` is
kept as a raw JSON value because the source only converts it later, inside
`timedelta(seconds=expires_in)`, which raises on non-numeric values. -/
structure TokenBody where
  access_token : Option String
  refresh_token : Option String
  expires_in : Option JVal

/-- Python `timedelta(seconds=data.get('expires_in', 3600))`: a missing key
defaults to 3600 seconds; a JSON number converts to that many seconds; a JSON
boolean is a Python int (`True == 1`); any other JSON value (string, null,
array, object) makes `timedelta` raise TypeError — modelled as `none`. -/
def secondsOfJVal : Option JVal → Option Int
  | none => some 3600
  | some (.num n) => some n
  | some (.bool b) => some (if b then 1 else 0)
  | some _ => none

/-- Outcome of the single HTTP POST to the token endpoint performed by
`authenticate` / `refresh_access_token`: either `requests.post` raised
(`exc`), or it returned a status code together with a body; `none` for the
body models a 200 response on which `response.json()` (or attribute access on
a non-dict result) raises. -/
inductive TokenResponse where
  | exc (msg : String)
  | resp (status : Nat) (body : Option TokenBody)

/-- Outcome of the single HTTP POST to an API endpoint performed by
`_call_api`: either `requests.post` raised (timeout, connection error, ...),
or it returned a status code and a body whose parse either yields a `JVal` or
raises with a message (only consulted on status 200, as in the source). -/
inductive ApiResponse where
  | exc (msg : String)
  | resp (status : Nat) (body : Except String JVal)

/-- The mutable state of a `YoSmartAPIClient` instance. -/
structure YoSmartAPIClient where
  uaid : String
  secret_key : String
  auto_refresh : Bool
  access_token : Option String
  refresh_token : Option String
  token_expires_at : Option Int
  home_id : Option String
  devices : List JVal

/-- The request envelope `_call_api` builds: `method`, epoch-millisecond
`time`, and the `params` key, present only when the argument is truthy. -/
structure Payload where
  method : String
  time : Int
  params : Option Params

/-- Observable events of one operation: invocations of `authenticate` and
`refresh_access_token`, and actual HTTP POST attempts. -/
inductive Ev where
  | authenticateCall
  | refreshCall
  | tokenPost
  | apiPost (url : String) (payload : Payload)

/-- Result of a token-management operation: the Python boolean return value,
the updated client state, and the event trace. -/
structure StepResult where
  ok : Bool
  client : YoSmartAPIClient
  events : List Ev

/-- Result of `_call_api`: the returned dictionary (a `JVal`), the updated
client state, and the event trace. -/
structure CallResult where
  result : JVal
  client : YoSmartAPIClient
  events : List Ev

def TOKEN_URL : String := "https://api.yosmart.com/open/yolink/token"

def API_URL : String := "https://api.yosmart.com/open/yolink/v2/api"

def PRODUCTION_URL : String := "https://api.yosmart.com/open/production/v2/api"

/-- `YoSmartAPIClient.__init__`: stores the credentials and flag, and starts
with no access token, no refresh token, and no expiry instant. -/
def YoSmartAPIClient.init (uaid secret_key : String) (auto_refresh : Bool) :
    YoSmartAPIClient :=
  { uaid := uaid, secret_key := secret_key, auto_refresh := auto_refresh,
    access_token := none, refresh_token := none, token_expires_at := none,
    home_id := none, devices := [] }

/-- `authenticate`: one POST to the token endpoint. On HTTP 200 with a
parseable body it first assigns `access_token` and `refresh_token` as
returned by `data.get` (possibly absent) — these two assignments happen
before `timedelta(seconds=expires_in)` runs — and then sets
`token_expires_at := now + seconds` (default 3600), returning `True`. When
the `expires_in` value cannot be converted, `timedelta` raises AFTER the two
token assignments, the bare `except` catches it, and the call returns
`False` with `access_token`/`refresh_token` already overwritten and
`token_expires_at` untouched. On any other status, a body-parse failure, or
a transport exception it returns `False` with the state unchanged. -/
def authenticate (c : YoSmartAPIClient) (now : Int) (r : TokenResponse) :
    StepResult :=
  match r with
  | .exc _ => ⟨false, c, [.tokenPost]⟩
  | .resp status body =>
    if status = 200 then
      match body with
      | none => ⟨false, c, [.tokenPost]⟩
      | some data =>
        let c1 := { c with access_token := data.access_token,
                           refresh_token := data.refresh_token }
        match secondsOfJVal data.expires_in with
        | some expires_in =>
          ⟨true, { c1 with token_expires_at := some (now + expires_in) },
           [.tokenPost]⟩
        | none => ⟨false, c1, [.tokenPost]⟩
    else ⟨false, c, [.tokenPost]⟩

/-- `refresh_access_token`: with no (truthy) refresh token it delegates to
`authenticate`. Otherwise one POST to the token endpoint; on HTTP 200 with a
parseable body it first assigns `access_token` from the response — before
`timedelta(seconds=expires_in)` runs — then sets `token_expires_at` and
returns `True` (the stored refresh token is never touched). When the
`expires_in` value cannot be converted, `timedelta` raises after the
`access_token` assignment and the call returns `False` with `access_token`
already overwritten. On any other status, parse failure, or transport
exception it returns `False` with the state unchanged. -/
def refresh_access_token (c : YoSmartAPIClient) (now : Int) (r : TokenResponse) :
    StepResult :=
  if !strTruthy c.refresh_token then
    let a := authenticate c now r
    ⟨a.ok, a.client, .authenticateCall :: a.events⟩
  else
    match r with
    | .exc _ => ⟨false, c, [.tokenPost]⟩
    | .resp status body =>
      if status = 200 then
        match body with
        | none => ⟨false, c, [.tokenPost]⟩
        | some data =>
          let c1 := { c with access_token := data.access_token }
          match secondsOfJVal data.expires_in with
          | some expires_in =>
            ⟨true, { c1 with token_expires_at := some (now + expires_in) },
             [.tokenPost]⟩
          | none => ⟨false, c1, [.tokenPost]⟩
        else ⟨false, c, [.tokenPost]⟩

/-- `_ensure_valid_token`: with no (truthy) access token, call `authenticate`;
otherwise, when `auto_refresh` is set and an expiry instant is stored and
`now` is strictly later than `token_expires_at - 5 minutes`, call
`refresh_access_token`; otherwise return `True` with no network activity. -/
def ensure_valid_token (c : YoSmartAPIClient) (now : Int) (r : TokenResponse) :
    StepResult :=
  if !strTruthy c.access_token then
    let a := authenticate c now r
    ⟨a.ok, a.client, .authenticateCall :: a.events⟩
  else
    if c.auto_refresh then
      match c.token_expires_at with
      | some expires_at =>
        if now > expires_at - 300 then
          let a := refresh_access_token c now r
          ⟨a.ok, a.client, .refreshCall :: a.events⟩
        else ⟨true, c, []⟩
      | none => ⟨true, c, []⟩
    else ⟨true, c, []⟩

/-- The envelope `_call_api` builds: `method`, epoch milliseconds, and a
`params` key only when the argument is truthy (`if params:`). -/
def build_payload (method : String) (now : Int) (params : Option Params) :
    Payload :=
  { method := method, time := now * 1000,
    params := if paramsTruthy params then params else none }

/-- `_call_api`: ensure a valid token (returning the synthetic
`{"code": "999999", "desc": "Failed to obtain valid token"}` if that fails),
then POST the envelope to `url` (default `API_URL`). On HTTP 200 the parsed
body is returned verbatim; a non-200 status yields a synthesized result with
the stringified status and a generic description, the body unread; a
transport or parse exception yields `{"code": "999999", "desc": str(e)}`. -/
def call_api (c : YoSmartAPIClient) (now : Int) (tr : TokenResponse)
    (method : String) (params : Option Params) (url : Option String)
    (ar : ApiResponse) : CallResult :=
  let er := ensure_valid_token c now tr
  if !er.ok then
    ⟨.dict [("code", .str "999999"), ("desc", .str "Failed to obtain valid token")],
     er.client, er.events⟩
  else
    let u := url.getD API_URL
    let payload := build_payload method now params
    match ar with
    | .exc msg =>
      ⟨.dict [("code", .str "999999"), ("desc", .str msg)],
       er.client, er.events ++ [.apiPost u payload]⟩
    | .resp status body =>
      if status = 200 then
        match body with
        | .ok v => ⟨v, er.client, er.events ++ [.apiPost u payload]⟩
        | .error msg =>
          ⟨.dict [("code", .str "999999"), ("desc", .str msg)],
           er.client, er.events ++ [.apiPost u payload]⟩
      else
        ⟨.dict [("code", .str (Nat.repr status)),
                ("desc", .str ("HTTP " ++ Nat.repr status ++ " error"))],
         er.client, er.events ++ [.apiPost u payload]⟩

/-- Python `a or b` on optional strings: keep `a` when truthy, else `b`. -/
def pyOr (a b : Option String) : Option String :=
  if strTruthy a then a else b

/-- `create_client`: resolve each credential from the explicit argument or the
environment variable (`uaid or os.getenv(...)`); if either resolved value is
falsy, raise `ValueError` (modelled as `Except.error`) before any network
activity; otherwise construct a client with default `auto_refresh = True`. -/
def create_client (uaid secret_key : Option String)
    (env : String → Option String) : Except String YoSmartAPIClient :=
  let uaid' := pyOr uaid (env "YOSMART_UAID")
  let secret_key' := pyOr secret_key (env "YOSMART_SECRET")
  if !strTruthy uaid' || !strTruthy secret_key' then
    .error "UAID and secret_key must be provided or set as environment variables"
  else
    .ok (YoSmartAPIClient.init (uaid'.getD "") (secret_key'.getD "") true)

/-- Association-list lookup on the fields of a JSON dict. -/
def lookup : List (String × JVal) → String → Option JVal
  | [], _ => none
  | (k, v) :: rest, key => if k = key then some v else lookup rest key

/-- A value is a well-formed `ApiResult` when it is a dict whose `"code"` key
holds a non-empty string. -/
def isWellFormedApiResult : JVal → Bool
  | .dict fields =>
    match lookup fields "code" with
    | some (.str s) => s != ""
    | _ => false
  | _ => false

/-- Does a JSON value have the given top-level dictionary key? -/
def hasKey (v : JVal) (key : String) : Bool :=
  match v with
  | .dict fields => (lookup fields key).isSome
  | _ => false

def isAuthenticateCall : Ev → Bool
  | .authenticateCall => true
  | _ => false

def isRefreshCall : Ev → Bool
  | .refreshCall => true
  | _ => false

def isHttpPost : Ev → Bool
  | .tokenPost => true
  | .apiPost _ _ => true
  | _ => false

/-- Number of `authenticate` invocations recorded in a trace. -/
def countAuthenticate (evs : List Ev) : Nat := (evs.filter isAuthenticateCall).length

/-- Number of `refresh_access_token` invocations recorded in a trace. -/
def countRefresh (evs : List Ev) : Nat := (evs.filter isRefreshCall).length

/-- Number of HTTP POST attempts recorded in a trace. -/
def countHttpPost (evs : List Ev) : Nat := (evs.filter isHttpPost).length

/-- The TokenState invariant of the spec: an absent access token forces an
absent expiry instant. -/
def tokenInvariant (c : YoSmartAPIClient) : Prop :=
  c.access_token = none → c.token_expires_at = none

/-- A token-endpoint outcome whose successful (HTTP 200, parseable) body
carries an `access_token` value. -/
def providesAccessToken (r : TokenResponse) : Prop :=
  ∀ b, r = .resp 200 (some b) → b.access_token ≠ none

/-- A freshly constructed client holding no token (test fixture). -/
def sampleNoToken : YoSmartAPIClient := YoSmartAPIClient.init "ua_1" "sec_1" true

/-- A client holding an access/refresh token pair expiring at instant 1000,
with auto-refresh enabled (test fixture). -/
def sampleTokenHeld : YoSmartAPIClient :=
  { uaid := "ua_1", secret_key := "sec_1", auto_refresh := true,
    access_token := some "tok", refresh_token := some "r1",
    token_expires_at := some 1000, home_id := none, devices := [] }

/-- The same client with auto-refresh disabled (test fixture). -/
def sampleNoAutoRefresh : YoSmartAPIClient :=
  { sampleTokenHeld with auto_refresh := false }

/-- The same client holding no refresh token (test fixture). -/
def sampleNoRefreshToken : YoSmartAPIClient :=
  { sampleTokenHeld with refresh_token := none }

theorem toDigitsCore_length_le (b : Nat) :
    ∀ (f n : Nat) (ds : List Char), ds.length ≤ (Nat.toDigitsCore b f n ds).length
  | 0, _, _ => Nat.le_refl _
  | f + 1, n, ds => by
    simp only [Nat.toDigitsCore]
    split
    · exact Nat.le_succ _
    · exact Nat.le_trans (Nat.le_succ _)
        (toDigitsCore_length_le b f (n / b) (Nat.digitChar (n % b) :: ds))

theorem toDigitsCore_ne_nil (b f n : Nat) (ds : List Char) :
    Nat.toDigitsCore b (f + 1) n ds ≠ [] := by
  simp only [Nat.toDigitsCore]
  split
  · exact List.cons_ne_nil _ _
  · intro h
    have hle := toDigitsCore_length_le b f (n / b) (Nat.digitChar (n % b) :: ds)
    rw [h] at hle
    simp at hle

theorem natRepr_ne_empty (n : Nat) : Nat.repr n ≠ "" := by
  intro h
  apply toDigitsCore_ne_nil 10 n n []
  have h3 : (Nat.repr n).data = ("" : String).data := congrArg String.data h
  simpa [Nat.repr, Nat.toDigits, List.asString] using h3

theorem authenticate_events (c : YoSmartAPIClient) (now : Int) (r : TokenResponse) :
    (authenticate c now r).events = [Ev.tokenPost] := by
  cases r with
  | exc m => rfl
  | resp status body =>
    simp only [authenticate]
    split
    · cases body with
      | none => rfl
      | some data =>
        cases hsec : secondsOfJVal data.expires_in with
        | none => simp [hsec]
        | some s => simp [hsec]
    · rfl

theorem refresh_access_token_events (c : YoSmartAPIClient) (now : Int)
    (r : TokenResponse) :
    (refresh_access_token c now r).events =
      if strTruthy c.refresh_token then [Ev.tokenPost]
      else [Ev.authenticateCall, Ev.tokenPost] := by
  cases hrt : strTruthy c.refresh_token with
  | false => simp [refresh_access_token, hrt, authenticate_events]
  | true =>
    cases r with
    | exc m => simp [refresh_access_token, hrt]
    | resp status body =>
      by_cases hs : status = 200
      · subst hs
        cases body with
        | none => simp [refresh_access_token, hrt]
        | some data =>
          cases hsec : secondsOfJVal data.expires_in with
          | none => simp [refresh_access_token, hrt, hsec]
          | some s => simp [refresh_access_token, hrt, hsec]
      · simp [refresh_access_token, hrt, hs]

/-- C2: for every client state in which no access token is held,
`_ensure_valid_token` invokes `authenticate` exactly once (and `refresh`
never), and returns exactly `authenticate`'s boolean result, regardless of
the `auto_refresh` flag or any stored expiry instant. -/
theorem c2_ensure_no_token_authenticates (c : YoSmartAPIClient) (now : Int)
    (r : TokenResponse) (h : c.access_token = none) :
    (ensure_valid_token c now r).ok = (authenticate c now r).ok
    ∧ (ensure_valid_token c now r).client = (authenticate c now r).client
    ∧ countAuthenticate (ensure_valid_token c now r).events = 1
    ∧ countRefresh (ensure_valid_token c now r).events = 0 := by
  have he : ensure_valid_token c now r =
      ⟨(authenticate c now r).ok, (authenticate c now r).client,
        .authenticateCall :: (authenticate c now r).events⟩ := by
    simp [ensure_valid_token, h, strTruthy]
  rw [he, authenticate_events]
  exact ⟨rfl, rfl, rfl, rfl⟩

/-- Witness for C2 at a concrete tokenless client and a concrete successful
token exchange. -/
theorem c2_witness :
    (ensure_valid_token sampleNoToken 0
        (.resp 200 (some ⟨some "tok1", none, some (.num 3600)⟩))).ok
      = (authenticate sampleNoToken 0
          (.resp 200 (some ⟨some "tok1", none, some (.num 3600)⟩))).ok
    ∧ (ensure_valid_token sampleNoToken 0
        (.resp 200 (some ⟨some "tok1", none, some (.num 3600)⟩))).client
      = (authenticate sampleNoToken 0
          (.resp 200 (some ⟨some "tok1", none, some (.num 3600)⟩))).client
    ∧ countAuthenticate (ensure_valid_token sampleNoToken 0
        (.resp 200 (some ⟨some "tok1", none, some (.num 3600)⟩))).events = 1
    ∧ countRefresh (ensure_valid_token sampleNoToken 0
        (.resp 200 (some ⟨some "tok1", none, some (.num 3600)⟩))).events = 0 :=
  c2_ensure_no_token_authenticates sampleNoToken 0
    (.resp 200 (some ⟨some "tok1", none, some (.num 3600)⟩)) rfl

/-- C3 counterexample: at the boundary instant exactly 5 minutes (300 s)
before expiry (`now = 700`, `expiresAt = 1000`), the code's strict comparison
`now > expiresAt - 300` is false, so `_ensure_valid_token` performs no
refresh at all and simply returns true — contradicting the claim that the
boundary instant triggers a refresh. -/
theorem c3_counterexample :
    countRefresh (ensure_valid_token sampleTokenHeld 700
        (.resp 200 (some ⟨some "tok2", none, some (.num 3600)⟩))).events = 0
    ∧ ensure_valid_token sampleTokenHeld 700
        (.resp 200 (some ⟨some "tok2", none, some (.num 3600)⟩))
      = ⟨true, sampleTokenHeld, []⟩ :=
  ⟨rfl, rfl⟩

/-- C3 (amended): when an access token is held, auto-renewal is enabled, an
expiry instant is set, and the current time is STRICTLY within 5 minutes of
or past `expiresAt` (`now > expiresAt - 300`; the boundary instant itself
does not trigger renewal), `_ensure_valid_token` invokes
`refresh_access_token` exactly once, and that refresh delegates to
`authenticate` exactly once when no refresh token is held. -/
theorem c3_ensure_expiring_refreshes (c : YoSmartAPIClient) (now : Int)
    (r : TokenResponse) (ht : strTruthy c.access_token = true)
    (ha : c.auto_refresh = true) (e : Int) (he : c.token_expires_at = some e)
    (hnow : now > e - 300) :
    countRefresh (ensure_valid_token c now r).events = 1
    ∧ (strTruthy c.refresh_token = false →
        countAuthenticate (ensure_valid_token c now r).events = 1) := by
  have hev : (ensure_valid_token c now r).events =
      Ev.refreshCall :: (refresh_access_token c now r).events := by
    simp [ensure_valid_token, ht, ha, he, hnow]
  rw [hev, refresh_access_token_events]
  cases hrt : strTruthy c.refresh_token with
  | false => exact ⟨rfl, fun _ => rfl⟩
  | true => exact ⟨rfl, fun hc => by simp at hc⟩

/-- Witness for C3 (amended): one second past the boundary, with no refresh
token held, exactly one refresh is invoked and it authenticates once. -/
theorem c3_witness :
    countRefresh (ensure_valid_token sampleNoRefreshToken 701
        (.resp 200 (some ⟨some "tok2", none, some (.num 3600)⟩))).events = 1
    ∧ (strTruthy sampleNoRefreshToken.refresh_token = false →
        countAuthenticate (ensure_valid_token sampleNoRefreshToken 701
          (.resp 200 (some ⟨some "tok2", none, some (.num 3600)⟩))).events = 1) :=
  c3_ensure_expiring_refreshes sampleNoRefreshToken 701
    (.resp 200 (some ⟨some "tok2", none, some (.num 3600)⟩)) rfl rfl 1000 rfl
    (by decide)

/-- C4: when an access token is held, auto-renewal is enabled, an expiry
instant is set, and the current time is strictly more than 5 minutes before
`expiresAt`, `_ensure_valid_token` returns true with the state untouched and
an empty event trace: no HTTP post and no `authenticate`/`refresh`
invocation. -/
theorem c4_ensure_fresh_token_no_network (c : YoSmartAPIClient) (now : Int)
    (r : TokenResponse) (ht : strTruthy c.access_token = true)
    (ha : c.auto_refresh = true) (e : Int) (he : c.token_expires_at = some e)
    (hnow : now < e - 300) :
    ensure_valid_token c now r = ⟨true, c, []⟩ := by
  have hgt : ¬ now > e - 300 := by omega
  simp [ensure_valid_token, ht, ha, he, hgt]

/-- Witness for C4 at a concrete fresh-token client, 301 seconds before the
5-minute margin. -/
theorem c4_witness :
    ensure_valid_token sampleTokenHeld 699 (.exc "network down")
      = ⟨true, sampleTokenHeld, []⟩ :=
  c4_ensure_fresh_token_no_network sampleTokenHeld 699 (.exc "network down")
    rfl rfl 1000 rfl (by decide)

/-- C5: whenever the HTTP POST issued by `_call_api` completes with a status
other than 200, the returned result is exactly the synthesized dict with
`code` the stringified status and the generic `HTTP <status> error`
description, independent of the response body (the body is not parsed), and
it carries no `data` key. -/
theorem c5_non200_synthesized (c : YoSmartAPIClient) (now : Int)
    (tr : TokenResponse) (method : String) (params : Option Params)
    (url : Option String) (status : Nat) (body : Except String JVal)
    (hok : (ensure_valid_token c now tr).ok = true) (hs : status ≠ 200) :
    (call_api c now tr method params url (.resp status body)).result =
      .dict [("code", .str (Nat.repr status)),
             ("desc", .str ("HTTP " ++ Nat.repr status ++ " error"))]
    ∧ hasKey (call_api c now tr method params url (.resp status body)).result
        "data" = false := by
  have hres : (call_api c now tr method params url (.resp status body)).result =
      .dict [("code", .str (Nat.repr status)),
             ("desc", .str ("HTTP " ++ Nat.repr status ++ " error"))] := by
    simp [call_api, hok, hs]
  refine ⟨hres, ?_⟩
  rw [hres]
  simp [hasKey, lookup]

/-- Witness for C5: an HTTP 500 response whose body even contains a `data`
field yields exactly `{"code": "500", "desc": "HTTP 500 error"}`. -/
theorem c5_witness :
    (call_api sampleNoAutoRefresh 0 (.exc "unused") "Home.getGeneralInfo" none
        none (.resp 500 (.ok (.dict [("data", .str "ignored")])))).result =
      .dict [("code", .str "500"), ("desc", .str "HTTP 500 error")]
    ∧ hasKey (call_api sampleNoAutoRefresh 0 (.exc "unused")
        "Home.getGeneralInfo" none none
        (.resp 500 (.ok (.dict [("data", .str "ignored")])))).result
        "data" = false :=
  c5_non200_synthesized sampleNoAutoRefresh 0 (.exc "unused")
    "Home.getGeneralInfo" none none 500 (.ok (.dict [("data", .str "ignored")]))
    rfl (by decide)

/-- C1 counterexample: on the HTTP-200 path `_call_api` returns the parsed
body verbatim, so a valid (parseable) 200 body `{}` makes `_call_api` return
`{}` — a dictionary with no `code` key at all, not a well-formed `ApiResult`
with a non-empty `code` string, refuting the claim as stated. -/
theorem c1_counterexample :
    (ensure_valid_token sampleNoAutoRefresh 0 (.exc "unused")).ok = true
    ∧ (call_api sampleNoAutoRefresh 0 (.exc "unused") "Home.getGeneralInfo"
        none none (.resp 200 (.ok (.dict [])))).result = .dict []
    ∧ isWellFormedApiResult (call_api sampleNoAutoRefresh 0 (.exc "unused")
        "Home.getGeneralInfo" none none (.resp 200 (.ok (.dict [])))).result
      = false :=
  ⟨rfl, rfl, rfl⟩

/-- C1 (amended): `_call_api` never raises past its boundary — it is a total
function of the invocation and the token-check/HTTP outcome — and on every
path other than the HTTP-200 body pass-through (no usable token, transport
failure or timeout, non-200 status, malformed 200 body) its return value is
a well-formed `ApiResult` dictionary with a non-empty `code` string; on an
HTTP-200 response with a parseable body, that body is returned verbatim and
is well-formed only when the remote body is. -/
theorem c1_call_api_total_wellformed (c : YoSmartAPIClient) (now : Int)
    (tr : TokenResponse) (method : String) (params : Option Params)
    (url : Option String) (ar : ApiResponse) :
    isWellFormedApiResult (call_api c now tr method params url ar).result = true
    ∨ ∃ v, ar = .resp 200 (.ok v)
        ∧ (call_api c now tr method params url ar).result = v := by
  cases hok : (ensure_valid_token c now tr).ok with
  | false =>
    left
    simp [call_api, hok, isWellFormedApiResult, lookup]
  | true =>
    cases ar with
    | exc msg =>
      left
      simp [call_api, hok, isWellFormedApiResult, lookup]
    | resp status body =>
      by_cases hs : status = 200
      · subst hs
        cases body with
        | ok v =>
          right
          exact ⟨v, rfl, by simp [call_api, hok]⟩
        | error msg =>
          left
          simp [call_api, hok, isWellFormedApiResult, lookup]
      · left
        have hres : (call_api c now tr method params url
            (.resp status body)).result =
            .dict [("code", .str (Nat.repr status)),
                   ("desc", .str ("HTTP " ++ Nat.repr status ++ " error"))] := by
          simp [call_api, hok, hs]
        rw [hres]
        have hne : Nat.repr status ≠ "" := natRepr_ne_empty status
        simp [isWellFormedApiResult, lookup, bne_iff_ne, hne]

theorem call_api_client (c : YoSmartAPIClient) (now : Int) (tr : TokenResponse)
    (method : String) (params : Option Params) (url : Option String)
    (ar : ApiResponse) :
    (call_api c now tr method params url ar).client
      = (ensure_valid_token c now tr).client := by
  cases hok : (ensure_valid_token c now tr).ok with
  | false => simp [call_api, hok]
  | true =>
    cases ar with
    | exc m => simp [call_api, hok]
    | resp status body =>
      by_cases hs : status = 200
      · subst hs
        cases body with
        | ok v => simp [call_api, hok]
        | error m => simp [call_api, hok]
      · simp [call_api, hok, hs]

theorem authenticate_preserves_invariant (c : YoSmartAPIClient) (now : Int)
    (r : TokenResponse) (hc : tokenInvariant c) (hr : providesAccessToken r) :
    tokenInvariant (authenticate c now r).client := by
  cases r with
  | exc m => exact hc
  | resp status body =>
    by_cases hs : status = 200
    · subst hs
      cases body with
      | none => simpa [tokenInvariant, authenticate] using hc
      | some data =>
        cases hsec : secondsOfJVal data.expires_in with
        | some s =>
          intro h
          exact absurd (by simpa [authenticate, hsec] using h) (hr data rfl)
        | none =>
          intro h
          exact absurd (by simpa [authenticate, hsec] using h) (hr data rfl)
    · simpa [tokenInvariant, authenticate, hs] using hc

theorem refresh_access_token_preserves_invariant (c : YoSmartAPIClient)
    (now : Int) (r : TokenResponse) (hc : tokenInvariant c)
    (hr : providesAccessToken r) :
    tokenInvariant (refresh_access_token c now r).client := by
  cases hrt : strTruthy c.refresh_token with
  | false =>
    have ha := authenticate_preserves_invariant c now r hc hr
    simpa [tokenInvariant, refresh_access_token, hrt] using ha
  | true =>
    cases r with
    | exc m => simpa [tokenInvariant, refresh_access_token, hrt] using hc
    | resp status body =>
      by_cases hs : status = 200
      · subst hs
        cases body with
        | none => simpa [tokenInvariant, refresh_access_token, hrt] using hc
        | some data =>
          cases hsec : secondsOfJVal data.expires_in with
          | some s =>
            intro h
            exact absurd (by simpa [refresh_access_token, hrt, hsec] using h)
              (hr data rfl)
          | none =>
            intro h
            exact absurd (by simpa [refresh_access_token, hrt, hsec] using h)
              (hr data rfl)
      · simpa [tokenInvariant, refresh_access_token, hrt, hs] using hc

theorem ensure_valid_token_preserves_invariant (c : YoSmartAPIClient)
    (now : Int) (r : TokenResponse) (hc : tokenInvariant c)
    (hr : providesAccessToken r) :
    tokenInvariant (ensure_valid_token c now r).client := by
  cases ht : strTruthy c.access_token with
  | false =>
    have ha := authenticate_preserves_invariant c now r hc hr
    simpa [tokenInvariant, ensure_valid_token, ht] using ha
  | true =>
    cases ha : c.auto_refresh with
    | false => simpa [tokenInvariant, ensure_valid_token, ht, ha] using hc
    | true =>
      cases he : c.token_expires_at with
      | none => simp [tokenInvariant, ensure_valid_token, ht, ha, he]
      | some e =>
        by_cases hnow : now > e - 300
        · have hpr := refresh_access_token_preserves_invariant c now r hc hr
          simpa [tokenInvariant, ensure_valid_token, ht, ha, he, hnow] using hpr
        · simpa [tokenInvariant, ensure_valid_token, ht, ha, he, hnow] using hc

/-- C6 counterexample: a token-endpoint HTTP-200 response whose JSON body
lacks the `access_token` key makes `authenticate` succeed while storing
`access_token = None` together with `token_expires_at = now + 3600`: a state
holding an expiry instant without an access token IS reachable, refuting the
claimed invariant for the code as written. -/
theorem c6_counterexample :
    (authenticate sampleNoToken 0 (.resp 200 (some ⟨none, none, none⟩))).ok
      = true
    ∧ (authenticate sampleNoToken 0
        (.resp 200 (some ⟨none, none, none⟩))).client.access_token = none
    ∧ (authenticate sampleNoToken 0
        (.resp 200 (some ⟨none, none, none⟩))).client.token_expires_at
      = some 3600 :=
  ⟨rfl, rfl, rfl⟩

/-- C6 (amended): the invariant "access token absent implies expiry instant
absent" holds after construction and is preserved by `authenticate`,
`refresh_access_token`, `_ensure_valid_token` and `_call_api` PROVIDED every
successful (HTTP 200, parseable) token-endpoint response body carries an
`access_token` value; without that proviso the invariant is violated (see the
counterexample). -/
theorem c6_invariant_preserved (u s : String) (ar0 : Bool)
    (c : YoSmartAPIClient) (now : Int) (r : TokenResponse)
    (hc : tokenInvariant c) (hr : providesAccessToken r) :
    tokenInvariant (YoSmartAPIClient.init u s ar0)
    ∧ tokenInvariant (authenticate c now r).client
    ∧ tokenInvariant (refresh_access_token c now r).client
    ∧ tokenInvariant (ensure_valid_token c now r).client
    ∧ ∀ (method : String) (params : Option Params) (url : Option String)
        (ar : ApiResponse),
        tokenInvariant (call_api c now r method params url ar).client := by
  refine ⟨fun _ => rfl, authenticate_preserves_invariant c now r hc hr,
    refresh_access_token_preserves_invariant c now r hc hr,
    ensure_valid_token_preserves_invariant c now r hc hr,
    fun method params url ar => ?_⟩
  rw [call_api_client]
  exact ensure_valid_token_preserves_invariant c now r hc hr

/-- Witness for C6 (amended) at a concrete client and a concrete successful
token exchange that does carry an access token. -/
theorem c6_witness :
    tokenInvariant (YoSmartAPIClient.init "u" "s" true)
    ∧ tokenInvariant (authenticate sampleNoToken 0
        (.resp 200 (some ⟨some "tok1", none, some (.num 3600)⟩))).client
    ∧ tokenInvariant (refresh_access_token sampleNoToken 0
        (.resp 200 (some ⟨some "tok1", none, some (.num 3600)⟩))).client
    ∧ tokenInvariant (ensure_valid_token sampleNoToken 0
        (.resp 200 (some ⟨some "tok1", none, some (.num 3600)⟩))).client
    ∧ ∀ (method : String) (params : Option Params) (url : Option String)
        (ar : ApiResponse),
        tokenInvariant (call_api sampleNoToken 0
          (.resp 200 (some ⟨some "tok1", none, some (.num 3600)⟩))
          method params url ar).client :=
  c6_invariant_preserved "u" "s" true sampleNoToken 0
    (.resp 200 (some ⟨some "tok1", none, some (.num 3600)⟩))
    (fun _ => rfl)
    (by
      intro b hb
      injection hb with _ h2
      injection h2 with h3
      subst h3
      simp)

/-- C7 counterexample: with refresh token `"r1"` held, a successful exchange
whose response carries a fresh refresh token `"r2"` leaves the stored refresh
token at `"r1"` — `refresh_access_token` never reads `refresh_token` from the
response, so the stored token is NOT replaced by the fresh one, refuting that
part of the claim. -/
theorem c7_counterexample :
    (refresh_access_token sampleTokenHeld 0
        (.resp 200 (some ⟨some "tok2", some "r2", some (.num 3600)⟩))).ok = true
    ∧ (refresh_access_token sampleTokenHeld 0
        (.resp 200 (some ⟨some "tok2", some "r2", some (.num 3600)⟩))).client.refresh_token
      = some "r1" :=
  ⟨rfl, rfl⟩

/-- C7 (amended): for every invocation of `refresh_access_token` in which a
refresh token is held and the exchange succeeds (HTTP 200 with a parseable
body whose `expires_in` converts to `s` seconds — precisely the condition
under which the Python call completes and returns `True`), the stored
refresh token remains unchanged unconditionally — any fresh refresh token in
the response is ignored — while `access_token` and `token_expires_at` are
updated from the response. -/
theorem c7_refresh_success_updates (c : YoSmartAPIClient) (now : Int)
    (b : TokenBody) (s : Int) (hrt : strTruthy c.refresh_token = true)
    (hsec : secondsOfJVal b.expires_in = some s) :
    refresh_access_token c now (.resp 200 (some b)) =
      ⟨true,
       { c with access_token := b.access_token,
                token_expires_at := some (now + s) },
       [Ev.tokenPost]⟩ := by
  simp [refresh_access_token, hrt, hsec]

/-- Witness for C7 (amended) at a concrete client and response carrying a
fresh refresh token. -/
theorem c7_witness :
    refresh_access_token sampleTokenHeld 0
        (.resp 200 (some ⟨some "tok2", some "r2", some (.num 100)⟩)) =
      ⟨true,
       { sampleTokenHeld with access_token := some "tok2",
                              token_expires_at := some 100 },
       [Ev.tokenPost]⟩ :=
  c7_refresh_success_updates sampleTokenHeld 0
    ⟨some "tok2", some "r2", some (.num 100)⟩ 100 rfl rfl

/-- C8: `create_client` returns a configuration error exactly when the
resolved client identifier (explicit argument, else environment variable) or
the resolved secret is absent or empty, and otherwise returns a constructed
client — characterized as a full equation; the model of `create_client`
consumes no network outcome at all, so no network activity can precede the
error. -/
theorem c8_create_client_config_check (uaid secret_key : Option String)
    (env : String → Option String) :
    create_client uaid secret_key env =
      if strTruthy (pyOr uaid (env "YOSMART_UAID"))
          ∧ strTruthy (pyOr secret_key (env "YOSMART_SECRET")) then
        .ok (YoSmartAPIClient.init ((pyOr uaid (env "YOSMART_UAID")).getD "")
              ((pyOr secret_key (env "YOSMART_SECRET")).getD "") true)
      else
        .error "UAID and secret_key must be provided or set as environment variables" := by
  cases h1 : strTruthy (pyOr uaid (env "YOSMART_UAID")) <;>
    cases h2 : strTruthy (pyOr secret_key (env "YOSMART_SECRET")) <;>
      simp [create_client, h1, h2]

/-- C10: calling `_call_api` with an empty params dict behaves identically to
calling it with params absent — the built envelope carries no `params` key
(only truthy params are included), and the whole observable outcome (result,
state, events including the transmitted envelope) coincides. -/
theorem c10_empty_params_omitted (c : YoSmartAPIClient) (now : Int)
    (tr : TokenResponse) (method : String) (url : Option String)
    (ar : ApiResponse) :
    call_api c now tr method (some []) url ar
      = call_api c now tr method none url ar
    ∧ (build_payload method now (some [])).params = none
    ∧ build_payload method now (some []) = build_payload method now none := by
  have hb : build_payload method now (some []) = build_payload method now none := by
    simp [build_payload, paramsTruthy]
  refine ⟨?_, by simp [build_payload, paramsTruthy], hb⟩
  simp only [call_api, hb]

end YoSmart
